import Mathlib

/-!
Shallow embedding of the meeting-scheduler REST backend
(`src/unnamed/part_000` and the reduced variant `src/index.js`).

Each Express route handler becomes a pure Lean function over an explicit
store.  The Firestore collection is modelled as an association list
`Store := List (String × Meeting)` keyed by document id; `where` queries
become list filters, `doc(id).get()` becomes an association-list lookup,
`doc(id).update(...)` rewrites the entry in place, `doc(id).delete()`
removes it, and `collection.add(...)` appends a fresh id chosen by the
store (passed in as `freshId`).

Server time (`admin.firestore.FieldValue.serverTimestamp()`) is a `Nat`
parameter `now`; rendering a timestamp as an ISO-8601 string
(`.toDate().toISOString()`) is an abstract parameter `iso : Nat → String`.
JavaScript `new Date(s)` / `isNaN` / `.toISOString()` date parsing is an
abstract parameter `parseDate : String → Option String` returning the
normalized ISO string on success and `none` for an invalid date.  Note
that in the source these parse steps are guarded by JS truthiness
(`date ? new Date(date) : new Date()`), so the empty string — itself an
invalid date under `new Date("")` — never reaches the parser; the
embedding reproduces this guard literally.

Handlers return a `Resp` (HTTP status plus body or error message) paired
with the post-state of the store.
-/

namespace MeetingScheduler

/-- A meeting document as stored in the `meetings` collection.
`createdAt`/`updatedAt` are server timestamps; they are optional in the
document model (the response shapers in the source guard them with
`meetingData.createdAt ? ... : null`). -/
structure Meeting where
  title : String
  date : String
  location : String
  notes : String
  participants : List String
  createdBy : String
  createdAt : Option Nat
  updatedAt : Option Nat
deriving Repr, DecidableEq

/-- The `meetings` collection: an association list keyed by document id. -/
abbrev Store := List (String × Meeting)

/-- `db.collection(m).doc(id).get()`: look a meeting up by id. -/
def findMeeting : Store → String → Option Meeting
  | [], _ => none
  | (i, m) :: rest, id => if i = id then some m else findMeeting rest id

/-- `doc(id).update(...)` (here with the full merged document): replace the
entry with key `id`, leaving every other entry alone. -/
def writeMeeting (store : Store) (id : String) (m : Meeting) : Store :=
  store.map (fun p => if p.1 = id then (id, m) else p)

/-- `doc(id).delete()`: remove the entry with key `id`. -/
def deleteDoc (store : Store) (id : String) : Store :=
  store.filter (fun p => decide (p.1 ≠ id))

/-- An HTTP response: success with a status and body, or an error with a
status and message. -/
inductive Resp (α : Type) where
  | ok (status : Nat) (v : α)
  | err (status : Nat) (msg : String)
deriving Repr, DecidableEq

/-- The HTTP status of a response, success or error. -/
def Resp.status : Resp α → Nat
  | .ok s _ => s
  | .err s _ => s

/-- JS falsiness of an optional string request field (`!title`,
`!participantId`): the field is absent/null or the empty string. -/
def strFalsy : Option String → Bool
  | none => true
  | some s => s == ""

/-- Request body of `POST /api/meetings` (and the body fields read by
`PUT /api/meetings/:id`): every field optional. -/
structure CreateBody where
  title : Option String
  date : Option String
  location : Option String
  notes : Option String
  participants : Option (List String)
deriving Repr, DecidableEq

/-- `POST /api/meetings` handler of `src/unnamed/part_000` (lines 110-152):
reject falsy `title` with 400; if `date` is truthy parse it (400 when
invalid) else default to the current time; insert the new document with
`createdBy := uid`, `participants := participants || []`, both timestamps
set to the server time; respond 201 with the created record. -/
def createMeeting (parseDate : String → Option String) (iso : Nat → String)
    (now : Nat) (freshId : String) (uid : String) (body : CreateBody)
    (store : Store) : Resp (String × Meeting) × Store :=
  if strFalsy body.title then
    (.err 400 "Meeting title is required", store)
  else
    let parsed : Option String :=
      match body.date with
      | none => some (iso now)
      | some d => if d = "" then some (iso now) else parseDate d
    match parsed with
    | none => (.err 400 "Invalid date format", store)
    | some dIso =>
      let m : Meeting :=
        { title := body.title.getD ""
          date := dIso
          location := body.location.getD ""
          notes := body.notes.getD ""
          participants := body.participants.getD []
          createdBy := uid
          createdAt := some now
          updatedAt := some now }
      (.ok 201 (freshId, m), store ++ [(freshId, m)])

/-- `POST /api/meetings` handler of `src/index.js` (lines 55-98): same as
`createMeeting` except the body's `participants` field is not read and the
stored `participants` list is always empty. -/
def createMeetingIdx (parseDate : String → Option String) (iso : Nat → String)
    (now : Nat) (freshId : String) (uid : String) (body : CreateBody)
    (store : Store) : Resp (String × Meeting) × Store :=
  if strFalsy body.title then
    (.err 400 "Meeting title is required", store)
  else
    let parsed : Option String :=
      match body.date with
      | none => some (iso now)
      | some d => if d = "" then some (iso now) else parseDate d
    match parsed with
    | none => (.err 400 "Invalid date format", store)
    | some dIso =>
      let m : Meeting :=
        { title := body.title.getD ""
          date := dIso
          location := body.location.getD ""
          notes := body.notes.getD ""
          participants := []
          createdBy := uid
          createdAt := some now
          updatedAt := some now }
      (.ok 201 (freshId, m), store ++ [(freshId, m)])

/-- Response shape of a meeting record: the document fields with the two
server timestamps rendered as ISO strings (`null` when absent), as built
by the list/get/update handlers. -/
structure MeetingView where
  id : String
  title : String
  date : String
  location : String
  notes : String
  participants : List String
  createdBy : String
  createdAt : Option String
  updatedAt : Option String
deriving Repr, DecidableEq

/-- Shape one stored document for a response
(`{ id: doc.id, ...meetingData, createdAt: ...toISOString(), ... }`). -/
def shapeMeeting (iso : Nat → String) (id : String) (m : Meeting) : MeetingView :=
  { id := id
    title := m.title
    date := m.date
    location := m.location
    notes := m.notes
    participants := m.participants
    createdBy := m.createdBy
    createdAt := m.createdAt.map iso
    updatedAt := m.updatedAt.map iso }

/-- `GET /api/meetings` handler of `src/unnamed/part_000` (lines 155-180):
all documents with `createdBy == userId`, shaped. -/
def listOwned (iso : Nat → String) (uid : String) (store : Store) :
    List MeetingView :=
  (store.filter (fun p => decide (p.2.createdBy = uid))).map
    (fun p => shapeMeeting iso p.1 p.2)

/-- `GET /api/meetings/participating` handler of `src/unnamed/part_000`
(lines 183-207): all documents whose `participants` array contains the
caller, shaped. -/
def listParticipating (iso : Nat → String) (uid : String) (store : Store) :
    List MeetingView :=
  (store.filter (fun p => decide (uid ∈ p.2.participants))).map
    (fun p => shapeMeeting iso p.1 p.2)

/-- `GET /api/meetings/:id` handler of `src/unnamed/part_000`
(lines 210-240): 404 when absent; 403 when the caller is neither the
creator nor a participant; otherwise 200 with the shaped record. -/
def getMeeting (iso : Nat → String) (uid : String) (id : String)
    (store : Store) : Resp MeetingView :=
  match findMeeting store id with
  | none => .err 404 "Meeting not found"
  | some m =>
    if m.createdBy ≠ uid ∧ ¬ uid ∈ m.participants then
      .err 403 "Access denied"
    else
      .ok 200 (shapeMeeting iso id m)

/-- `PUT /api/meetings/:id` handler of `src/unnamed/part_000`
(lines 243-305): 404 when absent; 403 when the caller is not the creator;
if `date` is truthy parse it (400 when invalid), otherwise keep the stored
date; merge only the fields present in the body (`!== undefined` checks),
always refreshing `updatedAt`; write, and respond 200 with the updated
record as re-read from the store (here: the written document, since the
embedding is sequential). -/
def updateMeeting (parseDate : String → Option String) (now : Nat)
    (uid : String) (id : String) (body : CreateBody) (store : Store) :
    Resp (String × Meeting) × Store :=
  match findMeeting store id with
  | none => (.err 404 "Meeting not found", store)
  | some m =>
    if m.createdBy ≠ uid then
      (.err 403 "Only the meeting creator can update it", store)
    else
      let dateResult : Option String :=
        match body.date with
        | none => some m.date
        | some d => if d = "" then some m.date else parseDate d
      match dateResult with
      | none => (.err 400 "Invalid date format", store)
      | some newDate =>
        let m' : Meeting :=
          { title := body.title.getD m.title
            date := newDate
            location := body.location.getD m.location
            notes := body.notes.getD m.notes
            participants := body.participants.getD m.participants
            createdBy := m.createdBy
            createdAt := m.createdAt
            updatedAt := some now }
        (.ok 200 (id, m'), writeMeeting store id m')

/-- `DELETE /api/meetings/:id` handler of `src/unnamed/part_000`
(lines 308-339): 404 when absent; 403 when the caller is not the creator;
otherwise remove the document and respond 200. -/
def deleteMeeting (uid : String) (id : String) (store : Store) :
    Resp Unit × Store :=
  match findMeeting store id with
  | none => (.err 404 "Meeting not found", store)
  | some m =>
    if m.createdBy ≠ uid then
      (.err 403 "Only the meeting creator can delete it", store)
    else
      (.ok 200 (), deleteDoc store id)

/-- `POST /api/meetings/:id/participants` handler of `src/unnamed/part_000`
(lines 342-393): 400 when `participantId` is falsy (checked before the
lookup); 404 when the meeting is absent; 403 when the caller is not the
creator; 400 when the id is already in `participants`; otherwise append
it, refresh `updatedAt`, write, and respond 200 with the updated list. -/
def addParticipant (now : Nat) (uid : String) (id : String)
    (participantId : Option String) (store : Store) :
    Resp (List String) × Store :=
  if strFalsy participantId then
    (.err 400 "Participant ID is required", store)
  else
    match findMeeting store id with
    | none => (.err 404 "Meeting not found", store)
    | some m =>
      if m.createdBy ≠ uid then
        (.err 403 "Only the meeting creator can add participants", store)
      else
        let pid := participantId.getD ""
        if pid ∈ m.participants then
          (.err 400 "Participant already added to meeting", store)
        else
          let participants' := m.participants ++ [pid]
          let m' : Meeting :=
            { m with participants := participants', updatedAt := some now }
          (.ok 200 participants', writeMeeting store id m')

/-- `DELETE /api/meetings/:id/participants/:participantId` handler of
`src/unnamed/part_000` (lines 396-443): 404 when absent; 403 unless the
caller is the creator or is removing themselves; 400 when the id is not in
`participants`; otherwise filter out every matching entry, refresh
`updatedAt`, write, and respond 200 with the resulting list. -/
def removeParticipant (now : Nat) (uid : String) (id : String)
    (participantId : String) (store : Store) :
    Resp (List String) × Store :=
  match findMeeting store id with
  | none => (.err 404 "Meeting not found", store)
  | some m =>
    if m.createdBy ≠ uid ∧ uid ≠ participantId then
      (.err 403 "Unauthorized to remove this participant", store)
    else if ¬ participantId ∈ m.participants then
      (.err 400 "Participant not found in meeting", store)
    else
      let updated := m.participants.filter (fun x => decide (x ≠ participantId))
      let m' : Meeting :=
        { m with participants := updated, updatedAt := some now }
      (.ok 200 updated, writeMeeting store id m')

/-- Concrete stand-in for the abstract `parseDate` parameter, used to
evaluate handlers on concrete inputs: any non-empty string parses to
itself, the empty string is an invalid date (as `new Date("")` is in JS). -/
def pdSample : String → Option String :=
  fun s => if s = "" then none else some s

/-- Concrete stand-in for the abstract `iso` renderer, used to evaluate
handlers on concrete inputs. -/
def isoSample : Nat → String :=
  fun n => toString n

/-- A date-parse function that fails on every input, standing in for date
strings JavaScript cannot parse. -/
def pdNone : String → Option String :=
  fun _ => none

/-- A concrete stored meeting created by `alice` with participant `bob`. -/
def mtgA : Meeting :=
  { title := "Standup"
    date := "D0"
    location := ""
    notes := ""
    participants := ["bob"]
    createdBy := "alice"
    createdAt := some 1
    updatedAt := some 1 }

/-- A one-document store holding `mtgA` under id `m1`. -/
def storeA : Store := [("m1", mtgA)]

/-- A concrete meeting whose creator `alice` is also a participant. -/
def mtgBoth : Meeting :=
  { title := "Review"
    date := "D1"
    location := "HQ"
    notes := ""
    participants := ["alice", "bob"]
    createdBy := "alice"
    createdAt := some 2
    updatedAt := some 2 }

/-- A one-document store holding `mtgBoth` under id `m2`. -/
def storeB : Store := [("m2", mtgBoth)]

/-- Claim C2: a create request whose `title` is missing or the empty string
is rejected with a 400 bad-request error by both create handlers, and the
store is unchanged (no record persisted). -/
theorem create_missing_title_rejected
    (parseDate : String → Option String) (iso : Nat → String)
    (now : Nat) (freshId uid : String) (body : CreateBody) (store : Store)
    (h : body.title = none ∨ body.title = some "") :
    createMeeting parseDate iso now freshId uid body store
      = (.err 400 "Meeting title is required", store) ∧
    createMeetingIdx parseDate iso now freshId uid body store
      = (.err 400 "Meeting title is required", store) := by
  have hf : strFalsy body.title = true := by
    rcases h with h | h <;> simp [strFalsy, h]
  constructor <;> simp [createMeeting, createMeetingIdx, hf]

/-- Witness for C2: concrete create request with absent title. -/
theorem create_missing_title_rejected_witness :
    ((none : Option String) = none ∨ (none : Option String) = some "") ∧
    createMeeting pdSample isoSample 0 "m1" "alice"
        ⟨none, none, none, none, none⟩ []
      = (.err 400 "Meeting title is required", []) :=
  ⟨Or.inl rfl,
   (create_missing_title_rejected pdSample isoSample 0 "m1" "alice"
     ⟨none, none, none, none, none⟩ [] (Or.inl rfl)).1⟩

/-- Counterexample for C1 as stated: the body supplies `date := ""`, which
does not parse as a valid date (`new Date("")` is an Invalid Date, and
indeed `pdSample "" = none`), yet the create handler responds 201 and
persists a record: the JS truthiness guard `date ? new Date(date) : new
Date()` treats the supplied empty string as omitted and silently defaults
it to the current server time instead of rejecting with 400. -/
theorem create_empty_date_counterexample :
    pdSample "" = none ∧
    (createMeeting pdSample isoSample 5 "m1" "alice"
      ⟨some "Standup", some "", none, none, none⟩ []).1.status = 201 ∧
    (createMeeting pdSample isoSample 5 "m1" "alice"
      ⟨some "Standup", some "", none, none, none⟩ []).2 ≠ [] := by
  decide

/-- Claim C1 (amended): a create request supplying a NON-EMPTY `date` value
that does not parse is rejected with 400 by both create handlers and no
record is persisted; when `date` is omitted (and the title is valid) the
stored date defaults to the current server time.  (A supplied empty-string
`date`, although unparseable, is treated as omitted by the truthiness
guard — see the counterexample.) -/
theorem create_date_validation
    (parseDate : String → Option String) (iso : Nat → String)
    (now : Nat) (freshId uid : String) (body : CreateBody) (store : Store) :
    (∀ d, body.date = some d → d ≠ "" → parseDate d = none →
      ((createMeeting parseDate iso now freshId uid body store).1.status = 400 ∧
       (createMeeting parseDate iso now freshId uid body store).2 = store) ∧
      ((createMeetingIdx parseDate iso now freshId uid body store).1.status = 400 ∧
       (createMeetingIdx parseDate iso now freshId uid body store).2 = store)) ∧
    (body.date = none → strFalsy body.title = false →
      (∃ m, createMeeting parseDate iso now freshId uid body store
          = (.ok 201 (freshId, m), store ++ [(freshId, m)]) ∧ m.date = iso now) ∧
      (∃ m, createMeetingIdx parseDate iso now freshId uid body store
          = (.ok 201 (freshId, m), store ++ [(freshId, m)]) ∧ m.date = iso now)) := by
  constructor
  · intro d hd hne hp
    by_cases ht : strFalsy body.title = true
    · simp [createMeeting, createMeetingIdx, ht, Resp.status]
    · simp [createMeeting, createMeetingIdx, ht, hd, hne, hp, Resp.status]
  · intro hd ht
    constructor
    · refine ⟨{ title := body.title.getD ""
                date := iso now
                location := body.location.getD ""
                notes := body.notes.getD ""
                participants := body.participants.getD []
                createdBy := uid
                createdAt := some now
                updatedAt := some now }, ?_, rfl⟩
      simp [createMeeting, ht, hd]
    · refine ⟨{ title := body.title.getD ""
                date := iso now
                location := body.location.getD ""
                notes := body.notes.getD ""
                participants := []
                createdBy := uid
                createdAt := some now
                updatedAt := some now }, ?_, rfl⟩
      simp [createMeetingIdx, ht, hd]

/-- Witness for the amended C1: a concrete unparseable non-empty date is
rejected with the store unchanged, and a concrete create without a date
stores the current server time. -/
theorem create_date_validation_witness :
    (pdNone "x" = none ∧
     (createMeeting pdNone isoSample 5 "m1" "alice"
       ⟨some "T", some "x", none, none, none⟩ []).1.status = 400 ∧
     (createMeeting pdNone isoSample 5 "m1" "alice"
       ⟨some "T", some "x", none, none, none⟩ []).2 = []) ∧
    (∃ m, createMeeting pdNone isoSample 5 "m1" "alice"
        ⟨some "T", none, none, none, none⟩ []
      = (.ok 201 ("m1", m), [] ++ [("m1", m)]) ∧ m.date = isoSample 5) :=
  ⟨⟨rfl,
    ((create_date_validation pdNone isoSample 5 "m1" "alice"
      ⟨some "T", some "x", none, none, none⟩ []).1 "x" rfl (by decide) rfl).1⟩,
   ((create_date_validation pdNone isoSample 5 "m1" "alice"
     ⟨some "T", none, none, none, none⟩ []).2 rfl (by decide)).1⟩

/-- Counterexample for C3 as stated: a non-creator (`bob`) invoking
Add-Participant on an existing meeting WITHOUT supplying a participant
identifier receives 400 (the missing-identifier validation runs before the
creator check in the source), not the 403 the claim requires for every
non-creator call. -/
theorem nonCreator_addParticipant_counterexample :
    findMeeting storeA "m1" = some mtgA ∧
    mtgA.createdBy ≠ "bob" ∧
    (addParticipant 3 "bob" "m1" none storeA).1.status = 400 ∧
    (addParticipant 3 "bob" "m1" none storeA).1.status ≠ 403 := by
  decide

/-- Claim C3 (amended): for every existing meeting and every caller other
than its creator, Update and Delete respond 403 with the store unchanged;
Add-Participant responds 403 whenever a non-empty participant identifier
is supplied (a missing or empty identifier yields 400 before the
authorization check), and in every case Add-Participant leaves the store
unchanged. -/
theorem nonCreator_mutations_rejected
    (parseDate : String → Option String) (now : Nat) (uid id : String)
    (body : CreateBody) (store : Store) (m : Meeting)
    (hfind : findMeeting store id = some m) (hne : m.createdBy ≠ uid) :
    updateMeeting parseDate now uid id body store
      = (.err 403 "Only the meeting creator can update it", store) ∧
    deleteMeeting uid id store
      = (.err 403 "Only the meeting creator can delete it", store) ∧
    (∀ p : String, p ≠ "" →
      addParticipant now uid id (some p) store
        = (.err 403 "Only the meeting creator can add participants", store)) ∧
    (∀ po : Option String, (addParticipant now uid id po store).2 = store) := by
  refine ⟨?_, ?_, ?_, ?_⟩
  · simp [updateMeeting, hfind, hne]
  · simp [deleteMeeting, hfind, hne]
  · intro p hp
    simp [addParticipant, strFalsy, hp, hfind, hne]
  · intro po
    rcases po with _ | p
    · simp [addParticipant, strFalsy]
    · by_cases hp : p = ""
      · simp [addParticipant, strFalsy, hp]
      · simp [addParticipant, strFalsy, hp, hfind, hne]

/-- Witness for the amended C3: `bob` is not the creator of `mtgA` and every
mutation is rejected with 403 on a concrete store. -/
theorem nonCreator_mutations_rejected_witness :
    findMeeting storeA "m1" = some mtgA ∧ mtgA.createdBy ≠ "bob" ∧
    updateMeeting pdSample 3 "bob" "m1" ⟨none, none, none, none, none⟩ storeA
      = (.err 403 "Only the meeting creator can update it", storeA) ∧
    deleteMeeting "bob" "m1" storeA
      = (.err 403 "Only the meeting creator can delete it", storeA) ∧
    addParticipant 3 "bob" "m1" (some "carol") storeA
      = (.err 403 "Only the meeting creator can add participants", storeA) :=
  ⟨by decide, by decide,
   (nonCreator_mutations_rejected pdSample 3 "bob" "m1"
     ⟨none, none, none, none, none⟩ storeA mtgA (by decide) (by decide)).1,
   (nonCreator_mutations_rejected pdSample 3 "bob" "m1"
     ⟨none, none, none, none, none⟩ storeA mtgA (by decide) (by decide)).2.1,
   (nonCreator_mutations_rejected pdSample 3 "bob" "m1"
     ⟨none, none, none, none, none⟩ storeA mtgA (by decide) (by decide)).2.2.1
     "carol" (by decide)⟩

/-- Counterexample for C4 as stated: the creator supplies the field subset
containing only `date`, with the empty-string value.  The update succeeds
(status 200) but the supplied field is NOT written: the stored date stays
at the prior value `"D0"` because the truthiness guard `if (date)` treats
the supplied empty string as omitted (and it is not rejected either,
although `pdSample "" = none`, i.e. the value is unparseable). -/
theorem update_empty_date_counterexample :
    pdSample "" = none ∧
    mtgA.date = "D0" ∧
    updateMeeting pdSample 7 "alice" "m1"
        ⟨none, some "", none, none, none⟩ storeA
      = (.ok 200 ("m1", { mtgA with updatedAt := some 7 }),
         writeMeeting storeA "m1" { mtgA with updatedAt := some 7 }) := by
  decide

/-- Claim C4 (amended): an Update by the creator whose `date` field is
either omitted or a non-empty parseable value succeeds; each supplied
field among title/location/notes/participants is written, a supplied
(non-empty, parseable) date is written in normalized form, every omitted
field keeps its prior value, `createdBy`/`createdAt` are untouched, and
`updatedAt` is refreshed to the current server time. -/
theorem update_partial_semantics
    (parseDate : String → Option String) (now : Nat) (uid id : String)
    (body : CreateBody) (store : Store) (m : Meeting)
    (hfind : findMeeting store id = some m) (hcr : m.createdBy = uid)
    (hdate : body.date = none ∨
      ∃ d s, body.date = some d ∧ d ≠ "" ∧ parseDate d = some s) :
    ∃ m', updateMeeting parseDate now uid id body store
        = (.ok 200 (id, m'), writeMeeting store id m') ∧
      m'.title = body.title.getD m.title ∧
      m'.location = body.location.getD m.location ∧
      m'.notes = body.notes.getD m.notes ∧
      m'.participants = body.participants.getD m.participants ∧
      m'.createdBy = m.createdBy ∧
      m'.createdAt = m.createdAt ∧
      m'.updatedAt = some now ∧
      (body.date = none → m'.date = m.date) ∧
      (∀ d s, body.date = some d → d ≠ "" → parseDate d = some s →
        m'.date = s) := by
  rcases hdate with hd | ⟨d, s, hd, hne, hp⟩
  · refine ⟨{ title := body.title.getD m.title
              date := m.date
              location := body.location.getD m.location
              notes := body.notes.getD m.notes
              participants := body.participants.getD m.participants
              createdBy := m.createdBy
              createdAt := m.createdAt
              updatedAt := some now },
      ?_, rfl, rfl, rfl, rfl, rfl, rfl, rfl, fun _ => rfl, ?_⟩
    · simp [updateMeeting, hfind, hcr, hd]
    · intro d' s' hds
      rw [hd] at hds
      exact absurd hds (by simp)
  · refine ⟨{ title := body.title.getD m.title
              date := s
              location := body.location.getD m.location
              notes := body.notes.getD m.notes
              participants := body.participants.getD m.participants
              createdBy := m.createdBy
              createdAt := m.createdAt
              updatedAt := some now },
      ?_, rfl, rfl, rfl, rfl, rfl, rfl, rfl, ?_, ?_⟩
    · simp [updateMeeting, hfind, hcr, hd, hne, hp]
    · intro h
      rw [hd] at h
      exact absurd h (by simp)
    · intro d' s' hds hne' hp'
      rw [hd] at hds
      cases hds
      cases hp.symm.trans hp'
      rfl

/-- Witness for the amended C4: the creator updates only `location`; the
other fields keep their prior values and `updatedAt` is refreshed. -/
theorem update_partial_semantics_witness :
    findMeeting storeA "m1" = some mtgA ∧
    mtgA.createdBy = "alice" ∧
    ((⟨none, none, some "Room 5", none, none⟩ : CreateBody).date = none ∨
      ∃ d s, (⟨none, none, some "Room 5", none, none⟩ : CreateBody).date = some d ∧
        d ≠ "" ∧ pdSample d = some s) ∧
    (∃ m', updateMeeting pdSample 9 "alice" "m1"
          ⟨none, none, some "Room 5", none, none⟩ storeA
        = (.ok 200 ("m1", m'), writeMeeting storeA "m1" m') ∧
      m'.title = (⟨none, none, some "Room 5", none, none⟩ : CreateBody).title.getD mtgA.title ∧
      m'.location = (⟨none, none, some "Room 5", none, none⟩ : CreateBody).location.getD mtgA.location ∧
      m'.notes = (⟨none, none, some "Room 5", none, none⟩ : CreateBody).notes.getD mtgA.notes ∧
      m'.participants = (⟨none, none, some "Room 5", none, none⟩ : CreateBody).participants.getD mtgA.participants ∧
      m'.createdBy = mtgA.createdBy ∧
      m'.createdAt = mtgA.createdAt ∧
      m'.updatedAt = some 9 ∧
      ((⟨none, none, some "Room 5", none, none⟩ : CreateBody).date = none → m'.date = mtgA.date) ∧
      (∀ d s, (⟨none, none, some "Room 5", none, none⟩ : CreateBody).date = some d → d ≠ "" →
        pdSample d = some s → m'.date = s)) :=
  ⟨by decide, by decide, Or.inl rfl,
   update_partial_semantics pdSample 9 "alice" "m1"
     ⟨none, none, some "Room 5", none, none⟩ storeA mtgA
     (by decide) (by decide) (Or.inl rfl)⟩

/-- Counterexample for C5 as stated: the creator supplies the empty-string
participant identifier, which is not present in the meeting's
`participants` sequence, so the claim requires it to be appended; the
handler instead rejects it as missing (`!participantId` is truthy for
`""`) with 400 and the list is unchanged. -/
theorem addParticipant_empty_id_counterexample :
    findMeeting storeA "m1" = some mtgA ∧
    mtgA.createdBy = "alice" ∧
    ¬ "" ∈ mtgA.participants ∧
    addParticipant 3 "alice" "m1" (some "") storeA
      = (.err 400 "Participant ID is required", storeA) := by
  decide

/-- Claim C5 (amended): for an Add-Participant request by the creator on an
existing meeting supplying a NON-EMPTY participant identifier: if the
identifier is already in `participants`, the handler responds 400 and the
store is unchanged; otherwise the identifier is appended to the end of the
sequence, `updatedAt` is refreshed to the server time, and the full
updated sequence is returned.  (A supplied empty identifier is rejected as
missing with 400 — see the counterexample.) -/
theorem addParticipant_semantics
    (now : Nat) (uid id p : String) (store : Store) (m : Meeting)
    (hfind : findMeeting store id = some m) (hcr : m.createdBy = uid)
    (hp : p ≠ "") :
    (p ∈ m.participants →
      addParticipant now uid id (some p) store
        = (.err 400 "Participant already added to meeting", store)) ∧
    (¬ p ∈ m.participants →
      addParticipant now uid id (some p) store
        = (.ok 200 (m.participants ++ [p]),
           writeMeeting store id
             { m with participants := m.participants ++ [p],
                      updatedAt := some now })) := by
  constructor <;> intro hmem <;>
    simp [addParticipant, strFalsy, hp, hfind, hcr, hmem]

/-- Witness for the amended C5: adding `carol` to `mtgA` (participants
`["bob"]`) appends her; adding `bob` again is rejected with 400. -/
theorem addParticipant_semantics_witness :
    findMeeting storeA "m1" = some mtgA ∧
    mtgA.createdBy = "alice" ∧
    ("carol" : String) ≠ "" ∧
    ¬ "carol" ∈ mtgA.participants ∧
    "bob" ∈ mtgA.participants ∧
    addParticipant 6 "alice" "m1" (some "carol") storeA
      = (.ok 200 (mtgA.participants ++ ["carol"]),
         writeMeeting storeA "m1"
           { mtgA with participants := mtgA.participants ++ ["carol"],
                       updatedAt := some 6 }) ∧
    addParticipant 6 "alice" "m1" (some "bob") storeA
      = (.err 400 "Participant already added to meeting", storeA) :=
  ⟨by decide, by decide, by decide, by decide, by decide,
   (addParticipant_semantics 6 "alice" "m1" "carol" storeA mtgA
     (by decide) (by decide) (by decide)).2 (by decide),
   (addParticipant_semantics 6 "alice" "m1" "bob" storeA mtgA
     (by decide) (by decide) (by decide)).1 (by decide)⟩

/-- Claim C6: on an existing meeting, Remove-Participant responds 403 to
any caller who is neither the creator nor the participant being removed;
an authorized caller naming an identifier not in `participants` gets 400
with the store unchanged; an authorized caller naming a present identifier
succeeds with status 200. -/
theorem removeParticipant_authorization
    (now : Nat) (uid id pid : String) (store : Store) (m : Meeting)
    (hfind : findMeeting store id = some m) :
    (¬ (m.createdBy = uid ∨ uid = pid) →
      removeParticipant now uid id pid store
        = (.err 403 "Unauthorized to remove this participant", store)) ∧
    ((m.createdBy = uid ∨ uid = pid) → ¬ pid ∈ m.participants →
      removeParticipant now uid id pid store
        = (.err 400 "Participant not found in meeting", store)) ∧
    ((m.createdBy = uid ∨ uid = pid) → pid ∈ m.participants →
      (removeParticipant now uid id pid store).1.status = 200) := by
  refine ⟨?_, ?_, ?_⟩
  · intro h
    rw [not_or] at h
    simp [removeParticipant, hfind, h.1, h.2]
  · intro hauth hmem
    have hcond : ¬ (m.createdBy ≠ uid ∧ uid ≠ pid) := by tauto
    simp only [removeParticipant, hfind]
    rw [if_neg hcond, if_pos hmem]
  · intro hauth hmem
    have hcond : ¬ (m.createdBy ≠ uid ∧ uid ≠ pid) := by tauto
    simp only [removeParticipant, hfind]
    rw [if_neg hcond, if_neg (by simpa using hmem)]
    rfl

/-- Witness for C6: in `storeA`, the non-creator non-target `carol` gets
403; the creator removing absent `dave` gets 400; the participant `bob`
removing himself succeeds with 200. -/
theorem removeParticipant_authorization_witness :
    findMeeting storeA "m1" = some mtgA ∧
    ¬ (mtgA.createdBy = "carol" ∨ ("carol" : String) = "bob") ∧
    removeParticipant 4 "carol" "m1" "bob" storeA
      = (.err 403 "Unauthorized to remove this participant", storeA) ∧
    (mtgA.createdBy = "alice" ∨ ("alice" : String) = "dave") ∧
    ¬ "dave" ∈ mtgA.participants ∧
    removeParticipant 4 "alice" "m1" "dave" storeA
      = (.err 400 "Participant not found in meeting", storeA) ∧
    (mtgA.createdBy = "bob" ∨ ("bob" : String) = "bob") ∧
    "bob" ∈ mtgA.participants ∧
    (removeParticipant 4 "bob" "m1" "bob" storeA).1.status = 200 :=
  ⟨by decide, by decide,
   (removeParticipant_authorization 4 "carol" "m1" "bob" storeA mtgA
     (by decide)).1 (by decide),
   Or.inl (by decide), by decide,
   (removeParticipant_authorization 4 "alice" "m1" "dave" storeA mtgA
     (by decide)).2.1 (Or.inl (by decide)) (by decide),
   Or.inr (by decide), by decide,
   (removeParticipant_authorization 4 "bob" "m1" "bob" storeA mtgA
     (by decide)).2.2 (Or.inr (by decide)) (by decide)⟩

/-- Claim C7: Get-Meeting-By-Id responds 404 for an unknown identifier;
for an existing meeting, a caller who is neither the creator nor in
`participants` gets 403, and a creator or participant receives the record
with both server timestamps rendered through the ISO renderer. -/
theorem getMeeting_access
    (iso : Nat → String) (uid id : String) (store : Store) :
    (findMeeting store id = none →
      getMeeting iso uid id store = .err 404 "Meeting not found") ∧
    (∀ m, findMeeting store id = some m →
      (¬ (m.createdBy = uid ∨ uid ∈ m.participants) →
        getMeeting iso uid id store = .err 403 "Access denied") ∧
      ((m.createdBy = uid ∨ uid ∈ m.participants) →
        getMeeting iso uid id store
          = .ok 200 (shapeMeeting iso id m) ∧
        (shapeMeeting iso id m).createdAt = m.createdAt.map iso ∧
        (shapeMeeting iso id m).updatedAt = m.updatedAt.map iso)) := by
  constructor
  · intro h
    simp [getMeeting, h]
  · intro m hfind
    constructor
    · intro h
      rw [not_or] at h
      simp [getMeeting, hfind, h.1, h.2]
    · intro hauth
      have hcond : ¬ (m.createdBy ≠ uid ∧ ¬ uid ∈ m.participants) := by tauto
      refine ⟨?_, rfl, rfl⟩
      simp only [getMeeting, hfind]
      rw [if_neg hcond]

/-- Witness for C7: unknown id `zz` gives 404; the outsider `carol` gets
403 on `m1`; the participant `bob` receives the shaped record. -/
theorem getMeeting_access_witness :
    findMeeting storeA "zz" = none ∧
    getMeeting isoSample "bob" "zz" storeA = .err 404 "Meeting not found" ∧
    findMeeting storeA "m1" = some mtgA ∧
    ¬ (mtgA.createdBy = "carol" ∨ ("carol" : String) ∈ mtgA.participants) ∧
    getMeeting isoSample "carol" "m1" storeA = .err 403 "Access denied" ∧
    (mtgA.createdBy = "bob" ∨ ("bob" : String) ∈ mtgA.participants) ∧
    getMeeting isoSample "bob" "m1" storeA
      = .ok 200 (shapeMeeting isoSample "m1" mtgA) :=
  ⟨by decide,
   (getMeeting_access isoSample "bob" "zz" storeA).1 (by decide),
   by decide, by decide,
   ((getMeeting_access isoSample "carol" "m1" storeA).2 mtgA (by decide)).1
     (by decide),
   Or.inr (by decide),
   (((getMeeting_access isoSample "bob" "m1" storeA).2 mtgA (by decide)).2
     (Or.inr (by decide))).1⟩

/-- Claim C8: List-Owned returns exactly the shaped records whose
`createdBy` equals the caller, List-Participating exactly those whose
`participants` contain the caller, and a record where the caller is both
creator and participant appears in both lists. -/
theorem list_queries_exact
    (iso : Nat → String) (uid : String) (store : Store) :
    (∀ v, v ∈ listOwned iso uid store ↔
      ∃ id m, (id, m) ∈ store ∧ m.createdBy = uid ∧
        v = shapeMeeting iso id m) ∧
    (∀ v, v ∈ listParticipating iso uid store ↔
      ∃ id m, (id, m) ∈ store ∧ uid ∈ m.participants ∧
        v = shapeMeeting iso id m) ∧
    (∀ id m, (id, m) ∈ store → m.createdBy = uid → uid ∈ m.participants →
      shapeMeeting iso id m ∈ listOwned iso uid store ∧
      shapeMeeting iso id m ∈ listParticipating iso uid store) := by
  refine ⟨?_, ?_, ?_⟩
  · intro v
    simp only [listOwned, List.mem_map, List.mem_filter, decide_eq_true_eq]
    constructor
    · rintro ⟨⟨id, m⟩, ⟨hmem, hcr⟩, hv⟩
      exact ⟨id, m, hmem, hcr, hv.symm⟩
    · rintro ⟨id, m, hmem, hcr, hv⟩
      exact ⟨⟨id, m⟩, ⟨hmem, hcr⟩, hv.symm⟩
  · intro v
    simp only [listParticipating, List.mem_map, List.mem_filter,
      decide_eq_true_eq]
    constructor
    · rintro ⟨⟨id, m⟩, ⟨hmem, hpart⟩, hv⟩
      exact ⟨id, m, hmem, hpart, hv.symm⟩
    · rintro ⟨id, m, hmem, hpart, hv⟩
      exact ⟨⟨id, m⟩, ⟨hmem, hpart⟩, hv.symm⟩
  · intro id m hmem hcr hpart
    constructor
    · exact List.mem_map.mpr
        ⟨(id, m), List.mem_filter.mpr ⟨hmem, decide_eq_true hcr⟩, rfl⟩
    · exact List.mem_map.mpr
        ⟨(id, m), List.mem_filter.mpr ⟨hmem, decide_eq_true hpart⟩, rfl⟩

/-- Witness for C8: `alice` is both creator and participant of `mtgBoth`,
which therefore appears in both of her lists for the store `storeB`. -/
theorem list_queries_exact_witness :
    ("m2", mtgBoth) ∈ storeB ∧
    mtgBoth.createdBy = "alice" ∧
    ("alice" : String) ∈ mtgBoth.participants ∧
    shapeMeeting isoSample "m2" mtgBoth ∈ listOwned isoSample "alice" storeB ∧
    shapeMeeting isoSample "m2" mtgBoth ∈
      listParticipating isoSample "alice" storeB :=
  ⟨by decide, by decide, by decide,
   ((list_queries_exact isoSample "alice" storeB).2.2 "m2" mtgBoth
     (by decide) (by decide) (by decide)).1,
   ((list_queries_exact isoSample "alice" storeB).2.2 "m2" mtgBoth
     (by decide) (by decide) (by decide)).2⟩

/-- Claim C9: there is an Update request by the creator that stores a
`participants` sequence containing duplicate entries — the update handler
writes a supplied `participants` value verbatim with no duplicate check,
so the no-duplicates property enforced by Add-Participant is not preserved
by Update. -/
theorem update_can_store_duplicates :
    ∃ now uid id body store m',
      updateMeeting pdSample now uid id body store
        = (.ok 200 (id, m'), writeMeeting store id m') ∧
      ¬ m'.participants.Nodup := by
  refine ⟨7, "alice", "m1", ⟨none, none, none, none, some ["bob", "bob"]⟩,
    storeA, { mtgA with participants := ["bob", "bob"], updatedAt := some 7 },
    ?_, ?_⟩ <;> decide

/-- Claim C10: a successful Remove-Participant removes every occurrence of
the removed identifier from the stored and returned sequence, and the
remaining entries keep their relative order (the result is a sublist of
the original with all counts of other identifiers preserved). -/
theorem removeParticipant_removes_all
    (now : Nat) (uid id pid : String) (store : Store) (m : Meeting)
    (hfind : findMeeting store id = some m)
    (hauth : m.createdBy = uid ∨ uid = pid)
    (hmem : pid ∈ m.participants) :
    ∃ updated,
      removeParticipant now uid id pid store
        = (.ok 200 updated,
           writeMeeting store id
             { m with participants := updated, updatedAt := some now }) ∧
      ¬ pid ∈ updated ∧
      updated.Sublist m.participants ∧
      ∀ x, x ≠ pid → updated.count x = m.participants.count x := by
  have hcond : ¬ (m.createdBy ≠ uid ∧ uid ≠ pid) := by tauto
  refine ⟨m.participants.filter (fun x => decide (x ≠ pid)), ?_, ?_, ?_, ?_⟩
  · simp only [removeParticipant, hfind]
    rw [if_neg hcond, if_neg (by simpa using hmem)]
  · simp [List.mem_filter]
  · exact List.filter_sublist _
  · intro x hx
    exact List.count_filter (by simpa using hx)

/-- Witness for C10: `alice` (creator) removes `bob` from a meeting whose
participant list contains `bob` twice around `carol`; both occurrences go
and `carol` survives with its count intact. -/
theorem removeParticipant_removes_all_witness :
    findMeeting [("m3", { mtgA with participants := ["bob", "carol", "bob"] })]
        "m3"
      = some { mtgA with participants := ["bob", "carol", "bob"] } ∧
    (({ mtgA with participants := ["bob", "carol", "bob"] } : Meeting).createdBy
        = "alice" ∨ ("alice" : String) = "bob") ∧
    ("bob" : String) ∈
      ({ mtgA with participants := ["bob", "carol", "bob"] } : Meeting).participants ∧
    (∃ updated,
      removeParticipant 8 "alice" "m3" "bob"
          [("m3", { mtgA with participants := ["bob", "carol", "bob"] })]
        = (.ok 200 updated,
           writeMeeting [("m3", { mtgA with participants := ["bob", "carol", "bob"] })]
             "m3"
             { { mtgA with participants := ["bob", "carol", "bob"] } with
                 participants := updated, updatedAt := some 8 }) ∧
      ¬ ("bob" : String) ∈ updated ∧
      updated.Sublist
        ({ mtgA with participants := ["bob", "carol", "bob"] } : Meeting).participants ∧
      ∀ x, x ≠ "bob" → updated.count x
        = ({ mtgA with participants := ["bob", "carol", "bob"] } : Meeting).participants.count x) :=
  ⟨by decide, Or.inl (by decide), by decide,
   removeParticipant_removes_all 8 "alice" "m3" "bob"
     [("m3", { mtgA with participants := ["bob", "carol", "bob"] })]
     { mtgA with participants := ["bob", "carol", "bob"] }
     (by decide) (Or.inl (by decide)) (by decide)⟩

end MeetingScheduler
